import Mathlib

/-!
Verification development for the iperf3_exporter repository.
The Go source is shallowly embedded: pure functions become Lean functions,
float64 values become exact rationals (the inputs exercised here are exactly
representable, and the operations performed on them - defaulting, comparison,
multiplication by constants, truncation to int64 nanoseconds - agree with the
rational model at those inputs), time.Duration becomes Int (nanoseconds), and
Go standard-library parsers (strconv.Atoi, strconv.ParseBool,
strconv.ParseFloat on finite decimal notation, time.ParseDuration) are
translated as executable Lean parsers over the same grammars.
-/

/-- Character class for ASCII decimal digits, as used by the Go regexps \d and [0-9]. -/
def isDigitChar (c : Char) : Bool := '0' ≤ c && c ≤ '9'

/-- Numeric value of a digit character. -/
def digitVal (c : Char) : Nat := c.toNat - '0'.toNat

/-- Decimal value of a digit list (most significant first). -/
def digitsToNat (l : List Char) : Nat := l.foldl (fun acc c => acc * 10 + digitVal c) 0

/-- Truncation of a rational toward zero, as Go float64-to-int64 conversion does. -/
def truncRat (q : Rat) : Int := if 0 ≤ q then ⌊q⌋ else -⌊-q⌋

/-- Consume one-or-more leading digits; return the remainder, or none when no digit leads. -/
def eatDigits1 : List Char → Option (List Char) := fun cs =>
  let p := cs.span isDigitChar
  if p.1.isEmpty then none else some p.2

/-- Matcher for the regexp of internal/validation/validators.go line 42,
pattern ^\d+[KMG](/\d+)?$ : one-or-more digits, a mandatory unit letter,
then an optional slash-delimited digit run. Anchored; greedy digit runs are
exact here because no digit can follow a digit run in the pattern. -/
def matchStrictBitrate (cs : List Char) : Bool :=
  match eatDigits1 cs with
  | none => false
  | some r1 =>
    match r1 with
    | u :: r2 =>
      if u = 'K' || u = 'M' || u = 'G' then
        match r2 with
        | [] => true
        | '/' :: r3 =>
          match eatDigits1 r3 with
          | some [] => true
          | _ => false
        | _ => false
      else false
    | [] => false

/-- ValidationError of internal/validation/errors.go: a failing field plus a message. -/
structure ValidationError where
  field : String
  message : String
deriving DecidableEq, Repr

namespace Validation

/-- Embedding of validation.ValidatePort (validators.go lines 55-60): a port is
valid iff it lies in 1..65535; otherwise a field error on "port" is returned.
None models a nil error. -/
def ValidatePort (port : Int) : Option ValidationError :=
  if port < 1 || port > 65535 then
    some ⟨"port", "must be between 1 and 65535"⟩
  else none

/-- Embedding of validation.ValidateBitrate (validators.go lines 35-52): the
empty string is valid; otherwise the string must match ^\d+[KMG](/\d+)?$. -/
def ValidateBitrate (bitrate : String) : Option ValidationError :=
  if bitrate = "" then none
  else if matchStrictBitrate bitrate.data then none
  else some ⟨"bitrate", "must be in format #[KMG][/#]"⟩

/-- Embedding of validation.ValidateDuration (validators.go lines 23-31) on
nanosecond-integer durations: d must be at least min, and, when max is
positive, at most max. The formatted bound values of the Go messages are not
reproduced; only the field and the bound that was hit matter here. -/
def ValidateDuration (field : String) (d min max : Int) : Option ValidationError :=
  if d < min then some ⟨field, "must be at least the minimum"⟩
  else if max > 0 && d > max then some ⟨field, "must not exceed the maximum"⟩
  else none

end Validation

namespace Iperf

/-- Matcher for the regexp of internal/iperf/iperf.go line 332,
pattern ^[0-9]+(\.[0-9]+)?([KMG])?(\/[0-9]+)?$ : digits, optional fraction,
optional unit letter, optional slash-delimited digit run. The greedy
translation is exact: after each digit run the continuations begin with a
non-digit, and the optional groups start with pairwise distinct characters. -/
def matchIperfBitrate (cs : List Char) : Bool :=
  match eatDigits1 cs with
  | none => false
  | some r1 =>
    let r2opt : Option (List Char) :=
      match r1 with
      | '.' :: t => eatDigits1 t
      | _ => some r1
    match r2opt with
    | none => false
    | some r2 =>
      let r3 : List Char :=
        match r2 with
        | c :: t => if c = 'K' || c = 'M' || c = 'G' then t else r2
        | [] => r2
      match r3 with
      | [] => true
      | '/' :: t =>
        match eatDigits1 t with
        | some [] => true
        | _ => false
      | _ => false

/-- Embedding of iperf.ValidateBitrate (iperf.go lines 335-341): empty is
valid, otherwise the bitrate pattern must match. -/
def ValidateBitrate (bitrate : String) : Bool :=
  if bitrate = "" then true else matchIperfBitrate bitrate.data

end Iperf

/-- Digit-run predicate used to state the spec's bitrate grammar. -/
def digitsNonempty (l : List Char) : Prop := l ≠ [] ∧ ∀ c ∈ l, isDigitChar c = true

/-- Modelled from the spec: membership in the bitrate grammar
^\d+(\.\d+)?[KMG]?(/\d+)?$ of spec.md section 4.1, stated as an explicit
decomposition into magnitude, optional fraction, optional unit letter and
optional burst suffix. Used only to compare the two source validators
against the spec's grammar. -/
def SpecBitrateGrammar (s : String) : Prop :=
  ∃ d1 frac unit burst : List Char,
    s.data = d1 ++ frac ++ unit ++ burst ∧
    digitsNonempty d1 ∧
    (frac = [] ∨ ∃ d2, frac = '.' :: d2 ∧ digitsNonempty d2) ∧
    (unit = [] ∨ unit = ['K'] ∨ unit = ['M'] ∨ unit = ['G']) ∧
    (burst = [] ∨ ∃ d3, burst = '/' :: d3 ∧ digitsNonempty d3)

/-- Embedding of strconv.Atoi: an optional sign followed by one-or-more
digits, with the int64 range check; none models a parse error. -/
def goAtoi (s : String) : Option Int :=
  match s.data with
  | [] => none
  | c :: rest =>
    let p : Bool × List Char :=
      if c = '-' then (true, rest)
      else if c = '+' then (false, rest)
      else (false, c :: rest)
    if p.2.isEmpty || !(p.2.all isDigitChar) then none
    else
      let v : Int := if p.1 then -(digitsToNat p.2 : Int) else (digitsToNat p.2 : Int)
      if v < -(2 ^ 63) || v > 2 ^ 63 - 1 then none else some v

/-- Embedding of strconv.ParseBool: the exact set of accepted literals. -/
def goParseBool (s : String) : Option Bool :=
  if s = "1" || s = "t" || s = "T" || s = "true" || s = "TRUE" || s = "True" then some true
  else if s = "0" || s = "f" || s = "F" || s = "false" || s = "FALSE" || s = "False" then
    some false
  else none

/-- Lexical shape of a finite decimal float literal: sign, integer-part value,
fraction-part value and digit count, and decimal exponent. -/
structure FloatTok where
  neg : Bool
  ip : Nat
  fp : Nat
  fplen : Nat
  ex : Int
deriving DecidableEq, Repr

/-- Lexer half of strconv.ParseFloat on finite decimal notation: sign, integer
and fractional digit runs, optional decimal exponent. The numeric value is
assembled separately so that this part evaluates inside the kernel. -/
def floatLex (s : String) : Option FloatTok :=
  let p : Bool × List Char :=
    match s.data with
    | '-' :: t => (true, t)
    | '+' :: t => (false, t)
    | l => (false, l)
  let ipr := p.2.span isDigitChar
  let fpr : List Char × List Char :=
    match ipr.2 with
    | '.' :: t => t.span isDigitChar
    | _ => ([], ipr.2)
  if ipr.1.isEmpty && fpr.1.isEmpty then none
  else
    let expOpt : Option Int :=
      match fpr.2 with
      | [] => some 0
      | e :: t =>
        if e = 'e' || e = 'E' then
          let ep : Bool × List Char :=
            match t with
            | '-' :: u => (true, u)
            | '+' :: u => (false, u)
            | u => (false, u)
          let edr := ep.2.span isDigitChar
          if edr.1.isEmpty || !edr.2.isEmpty then none
          else some (if ep.1 then -(digitsToNat edr.1 : Int) else (digitsToNat edr.1 : Int))
        else none
    match expOpt with
    | none => none
    | some e => some ⟨p.1, digitsToNat ipr.1, digitsToNat fpr.1, fpr.1.length, e⟩

/-- Exact rational value of a lexed decimal float literal. -/
def floatVal (t : FloatTok) : Rat :=
  let mant : Rat := (t.ip : Rat) + (t.fp : Rat) / ((10 ^ t.fplen : Nat) : Rat)
  let scale : Rat :=
    if 0 ≤ t.ex then ((10 ^ t.ex.toNat : Nat) : Rat) else 1 / ((10 ^ (-t.ex).toNat : Nat) : Rat)
  if t.neg then -(mant * scale) else mant * scale

/-- Embedding of strconv.ParseFloat restricted to finite decimal notation,
with the value kept exact as a rational. Hexadecimal floats, underscores, inf
and nan are outside this model; no claim below exercises them, and float64
rounding of the result is exact at every input used here. -/
def goParseFloat (s : String) : Option Rat := (floatLex s).map floatVal

/-- Nanosecond value of a time.ParseDuration unit token, from Go's unitMap. -/
def durationUnitNs (u : List Char) : Option Int :=
  if u = ['n', 's'] then some 1
  else if u = ['u', 's'] || u = ['µ', 's'] || u = ['μ', 's'] then some 1000
  else if u = ['m', 's'] then some 1000000
  else if u = ['s'] then some 1000000000
  else if u = ['m'] then some 60000000000
  else if u = ['h'] then some 3600000000000
  else none

/-- Split off the unit token of a duration segment: the maximal run of
characters that are neither digits nor a dot. -/
def splitDurationUnit (cs : List Char) : List Char × List Char :=
  cs.span (fun c => !(c = '.' || isDigitChar c))

/-- Segment loop of time.ParseDuration: repeatedly consume digits, an optional
fraction, and a unit, summing the nanosecond contributions. Each iteration
strictly shortens the input, so input length is enough fuel. A fractional part
contributes the truncation of digits x unit / 10^k, matching Go's conversion
of the scaled float to an integer. Overflow checks are omitted (no input here
approaches 2^63 nanoseconds). -/
def parseDurationSegs : Nat → List Char → Option Int
  | _, [] => some 0
  | 0, _ :: _ => none
  | fuel + 1, c :: cs =>
    if !(c = '.' || isDigitChar c) then none
    else
      let dr := (c :: cs).span isDigitChar
      let pre : Bool := !dr.1.isEmpty
      let fr : List Char × List Char × Bool :=
        match dr.2 with
        | '.' :: t =>
          let q := t.span isDigitChar
          (q.1, q.2, !q.1.isEmpty)
        | _ => ([], dr.2, false)
      if !pre && !fr.2.2 then none
      else
        let ur := splitDurationUnit fr.2.1
        if ur.1.isEmpty then none
        else
          match durationUnitNs ur.1 with
          | none => none
          | some unit =>
            let whole : Int := (digitsToNat dr.1 : Int) * unit
            let fracNs : Int :=
              if fr.1.isEmpty then 0
              else
                truncRat ((digitsToNat fr.1 : Rat) * (unit : Rat) / ((10 ^ fr.1.length : Nat) : Rat))
            match parseDurationSegs fuel ur.2 with
            | none => none
            | some rest => some (whole + fracNs + rest)

/-- Embedding of time.ParseDuration: optional sign, the special case "0", then
one-or-more number-unit segments; the result is integer nanoseconds. -/
def goParseDuration (s : String) : Option Int :=
  let p : Bool × List Char :=
    match s.data with
    | '-' :: t => (true, t)
    | '+' :: t => (false, t)
    | l => (false, l)
  if p.2 = ['0'] then some 0
  else if p.2 = [] then none
  else
    match parseDurationSegs (p.2.length + 1) p.2 with
    | none => none
    | some d => some (if p.1 then -d else d)

/-- ProbeConfig of internal/collector/collector.go (UDP-aware version):
the validated per-request probe configuration. Durations are nanoseconds. -/
structure ProbeConfig where
  Target : String
  Port : Int
  PeriodNs : Int
  TimeoutNs : Int
  ReverseMode : Bool
  UDPMode : Bool
  Bitrate : String
deriving DecidableEq, Repr

/-- Raw query parameters and scrape-timeout header of a probe request, as the
handler sees them; Go's query.Get and Header.Get return "" for a missing key. -/
structure HQuery where
  target : String := ""
  port : String := ""
  reverseMode : String := ""
  bitrate : String := ""
  period : String := ""
  scrapeTimeoutHeader : String := ""
deriving DecidableEq, Repr

/-- Outcome of the probe handler: an HTTP 400, an HTTP 500, or a probe run
with the assembled configuration. Every non-run outcome also increments the
process-wide error counter in the source. -/
inductive HandlerOutcome where
  | badRequest (msg : String)
  | internalError (msg : String)
  | run (cfg : ProbeConfig)
deriving DecidableEq, Repr

/-- Timeout resolution of probeHandler (server.go lines 277-295): the header
value when it parsed to a nonzero number (ts0 is 0 when the header is absent),
else the configured default when positive, else 30 seconds. No bound is
applied to the result. -/
def resolveTimeoutSeconds (configTimeoutSeconds ts0 : Rat) : Rat :=
  if ts0 = 0 then
    if configTimeoutSeconds > 0 then configTimeoutSeconds else 30
  else ts0

/-- Period consistency fix of probeHandler (server.go lines 298-300): when the
period in seconds is at least the resolved timeout, the period becomes
time.Duration(timeoutSeconds times 0.9) times time.Second - the scaled value
is truncated to int64 before the multiplication by one second, so the result
is a whole number of seconds. -/
def rescalePeriodNs (periodNs : Int) (ts : Rat) : Int :=
  if (periodNs : Rat) / 1000000000 ≥ ts then truncRat (ts * (9 / 10)) * 1000000000
  else periodNs

/-- Conversion of the resolved timeout to a deadline duration (server.go line
302): time.Duration(timeoutSeconds times float64(time.Second)). -/
def runTimeoutNs (ts : Rat) : Int := truncRat (ts * 1000000000)

/-- Port handling of probeHandler (server.go lines 213-230): absent means 0,
otherwise strconv.Atoi; the substitution of 5201 for 0 happens afterwards. -/
def parsePortParam (s : String) : Option Int :=
  if s = "" then some 0 else goAtoi s

/-- Final stage of probeHandler (server.go lines 289-315), after every request
parameter has parsed: resolve the timeout, rescale the period when needed, and
assemble the probe configuration. This stage has no failure path. -/
def finalizeProbe (target : String) (targetPort : Int) (reverseMode : Bool)
    (bitrate : String) (runPeriod0 : Int) (configTimeoutSeconds ts0 : Rat) :
    HandlerOutcome :=
  let ts := resolveTimeoutSeconds configTimeoutSeconds ts0
  HandlerOutcome.run
    ⟨target, targetPort, rescalePeriodNs runPeriod0 ts, runTimeoutNs ts,
      reverseMode, false, bitrate⟩

/-- Embedding of probeHandler (server.go lines 204-326): parameter checks in
source order with their early returns, defaulting of port (5201 for 0 or
absent) and period (5 seconds for 0 or absent), iperf.ValidateBitrate on a
non-empty bitrate, the scrape-timeout header as an internal error when
malformed, then the final assembly. This handler never parses a udp_mode
parameter, so the configuration's UDP flag is always false. -/
def probeHandler (configTimeoutSeconds : Rat) (q : HQuery) : HandlerOutcome :=
  if q.target = "" then .badRequest "target parameter must be specified"
  else
    match parsePortParam q.port with
    | none => .badRequest "port parameter must be an integer"
    | some p0 =>
      let targetPort : Int := if p0 = 0 then 5201 else p0
      match (if q.reverseMode = "" then some false else goParseBool q.reverseMode) with
      | none => .badRequest "reverse_mode parameter must be true or false"
      | some reverseMode =>
        if q.bitrate ≠ "" ∧ Iperf.ValidateBitrate q.bitrate = false then
          .badRequest "bitrate must be provided as #[KMG][/#]"
        else
          match (if q.period = "" then some 0 else goParseDuration q.period) with
          | none => .badRequest "period parameter must be a duration"
          | some per0 =>
            let runPeriod0 : Int := if per0 = 0 then 5000000000 else per0
            match (if q.scrapeTimeoutHeader = "" then some 0
                   else goParseFloat q.scrapeTimeoutHeader) with
            | none => .internalError "failed to parse timeout from Prometheus header"
            | some ts0 =>
              finalizeProbe q.target targetPort reverseMode q.bitrate runPeriod0
                configTimeoutSeconds ts0

namespace Iperf

/-- Config of internal/iperf/iperf.go (UDP-aware version, lines 321-330): the
per-test configuration handed to the Runner. The Logger field is omitted;
durations are nanoseconds. -/
structure Config where
  Target : String
  Port : Int
  PeriodNs : Int
  TimeoutNs : Int
  ReverseMode : Bool
  UDPMode : Bool
  Bitrate : String
deriving DecidableEq, Repr

/-- UDPInfo of iperf.go lines 306-318: the UDP metrics block. The JSON field
"end" is rendered endTime here because end is reserved in Lean. -/
structure UDPInfo where
  socket : Int := 0
  start : Rat := 0
  endTime : Rat := 0
  seconds : Rat := 0
  bytes : Rat := 0
  bitsPerSecond : Rat := 0
  jitterMs : Rat := 0
  lostPackets : Rat := 0
  packets : Rat := 0
  lostPercent : Rat := 0
  sender : Bool := false
deriving DecidableEq, Repr

/-- One entry of end.streams: a wrapper holding the udp block (iperf.go lines
298-300). -/
structure StreamEntry where
  udp : UDPInfo := ⟨0, 0, 0, 0, 0, 0, 0, 0, 0, 0, false⟩
deriving DecidableEq, Repr

/-- The end.sum_sent aggregate block (iperf.go lines 285-290). -/
structure SumSentBlock where
  seconds : Rat := 0
  bytes : Rat := 0
  bitsPerSecond : Rat := 0
  retransmits : Rat := 0
deriving DecidableEq, Repr

/-- The end.sum_received aggregate block (iperf.go lines 291-295). -/
structure SumReceivedBlock where
  seconds : Rat := 0
  bytes : Rat := 0
  bitsPerSecond : Rat := 0
deriving DecidableEq, Repr

/-- rawResult of iperf.go lines 277-303: the decoded JSON report. Absent JSON
fields decode to zero values, which the defaults model. -/
structure RawResult where
  protocol : String := ""
  sumSent : SumSentBlock := ⟨0, 0, 0, 0⟩
  sumReceived : SumReceivedBlock := ⟨0, 0, 0⟩
  streams : List StreamEntry := []
  sum : UDPInfo := ⟨0, 0, 0, 0, 0, 0, 0, 0, 0, 0, false⟩
deriving DecidableEq, Repr

/-- Result of iperf.go lines 253-274: the Runner's normalized record. The Go
Error field becomes an optional message; nil is none. -/
structure Result where
  Success : Bool := false
  SentSeconds : Rat := 0
  SentBytes : Rat := 0
  SentBitsPerSecond : Rat := 0
  ReceivedSeconds : Rat := 0
  ReceivedBytes : Rat := 0
  ReceivedBitsPerSecond : Rat := 0
  Retransmits : Rat := 0
  SentPackets : Rat := 0
  SentJitter : Rat := 0
  SentLostPackets : Rat := 0
  SentLostPercent : Rat := 0
  ReceivedPackets : Rat := 0
  ReceivedJitter : Rat := 0
  ReceivedLostPackets : Rat := 0
  ReceivedLostPercent : Rat := 0
  UDPMode : Bool := false
  ErrMsg : Option String := none
deriving DecidableEq, Repr

/-- Outcome of the external iperf3 invocation, abstracting cmd.Output and
json.Unmarshal: a nonzero exit or execution error with captured stderr,
undecodable output, or a decoded report. -/
inductive ExecOutcome where
  | execError (stderr : String)
  | badOutput
  | parsed (raw : RawResult)
deriving DecidableEq, Repr

/-- Warnings the Runner can log while populating a parsed result. -/
inductive RunWarning where
  | noStreams
  | missingReceiverMetrics
deriving DecidableEq, Repr

/-- Rounding to nearest integer with ties to even, as strconv.FormatFloat with
format f and precision 0 renders the period in whole seconds. -/
def ratRoundEven (q : Rat) : Int :=
  let f := ⌊q⌋
  let r := q - (f : Rat)
  if r < 1 / 2 then f else if 1 / 2 < r then f + 1 else if 2 ∣ f then f else f + 1

/-- The period argument string: the period in seconds rounded to a whole
number (iperf.go line 369). -/
def formatSecondsFixed0 (periodNs : Int) : String :=
  toString (ratRoundEven ((periodNs : Rat) / 1000000000))

/-- Argument-list construction of DefaultRunner.Run (iperf.go lines 366-396):
the fixed flags, then conditionally -R and -u, then the protocol-dependent
bitrate flag exactly as in the source's branch structure. -/
def buildIperfArgs (cfg : Config) : List String :=
  let args : List String :=
    ["-J", "-t", formatSecondsFixed0 cfg.PeriodNs, "-c", cfg.Target, "-p", toString cfg.Port]
  let args := if cfg.ReverseMode then args ++ ["-R"] else args
  let args := if cfg.UDPMode then args ++ ["-u"] else args
  if cfg.UDPMode then
    if cfg.Bitrate ≠ "" then args ++ ["-b", cfg.Bitrate]
    else args ++ ["-b", "1M"]
  else if cfg.Bitrate ≠ "" then args ++ ["-b", cfg.Bitrate]
  else args

/-- Mirror of the debug-log branch at iperf.go line 391: the default-bitrate
message is emitted exactly when UDP mode is active and no bitrate was given. -/
def usesDefaultUdpBitrate (cfg : Config) : Bool := cfg.UDPMode && cfg.Bitrate = ""

/-- Preflight of DefaultRunner.Run (iperf.go lines 358-364): none when the
bitrate re-validation fails (no process is spawned), otherwise the argument
list the external process is spawned with. Note that the port is not
re-validated on this path. -/
def runSpawns (cfg : Config) : Option (List String) :=
  if cfg.Bitrate ≠ "" ∧ ValidateBitrate cfg.Bitrate = false then none
  else some (buildIperfArgs cfg)

/-- Field population of DefaultRunner.Run after a successful JSON decode
(iperf.go lines 454-506), together with the warnings logged: TCP fields from
the aggregate blocks, UDP sender fields from streams[0].udp guarded by the
empty-streams check, UDP receiver fields from end.sum with the
missing-receiver-metrics warning. -/
def populateParsed (cfg : Config) (raw : RawResult) : Result × List RunWarning :=
  let r0 : Result := { UDPMode := cfg.UDPMode, Success := true }
  if cfg.UDPMode = false then
    ({ r0 with
        SentSeconds := raw.sumSent.seconds
        SentBytes := raw.sumSent.bytes
        SentBitsPerSecond := raw.sumSent.bitsPerSecond
        ReceivedSeconds := raw.sumReceived.seconds
        ReceivedBytes := raw.sumReceived.bytes
        ReceivedBitsPerSecond := raw.sumReceived.bitsPerSecond
        Retransmits := raw.sumSent.retransmits }, [])
  else
    let sw : Result × List RunWarning :=
      match raw.streams with
      | s0 :: _ =>
        ({ r0 with
            SentSeconds := s0.udp.seconds
            SentBytes := s0.udp.bytes
            SentBitsPerSecond := s0.udp.bitsPerSecond
            SentPackets := s0.udp.packets
            SentJitter := s0.udp.jitterMs
            SentLostPackets := s0.udp.lostPackets
            SentLostPercent := s0.udp.lostPercent }, [])
      | [] => (r0, [RunWarning.noStreams])
    let r1 : Result :=
      { sw.1 with
          ReceivedSeconds := raw.sum.seconds
          ReceivedBytes := raw.sum.bytes
          ReceivedBitsPerSecond := raw.sum.bitsPerSecond
          ReceivedPackets := raw.sum.packets
          ReceivedJitter := raw.sum.jitterMs
          ReceivedLostPackets := raw.sum.lostPackets
          ReceivedLostPercent := raw.sum.lostPercent }
    if r1.ReceivedBitsPerSecond ≤ 0 ∧ r1.ReceivedBytes ≤ 0 then
      (r1, sw.2 ++ [RunWarning.missingReceiverMetrics])
    else (r1, sw.2)

/-- Embedding of DefaultRunner.Run (iperf.go lines 352-529) as a function of
the configuration and the abstract invocation outcome: bitrate preflight,
then the execution-error, parse-error and parse-success paths. The result is
paired with the warnings logged. -/
def DefaultRunner.Run (cfg : Config) (outcome : ExecOutcome) : Result × List RunWarning :=
  match runSpawns cfg with
  | none => ({ ErrMsg := some ("invalid bitrate format: " ++ cfg.Bitrate) }, [])
  | some _ =>
    match outcome with
    | .execError stderr =>
      ({ ErrMsg := some (if stderr ≠ ""
            then "iperf3 execution failed: exit error: " ++ stderr
            else "iperf3 execution failed: exit error") }, [])
    | .badOutput => ({ ErrMsg := some "failed to parse iperf3 result" }, [])
    | .parsed raw => populateParsed cfg raw

end Iperf

/-- One emitted observation: metric name, gauge value, and the label values
(target, port as a decimal string) attached to it. -/
structure MetricPoint where
  name : String
  value : Rat
  labelValues : List String
deriving DecidableEq, Repr

/-- Everything one Collect invocation emits: the metric points in emission
order and how often the process-wide failure counter was incremented. -/
structure Snapshot where
  metrics : List MetricPoint
  errInc : Nat
deriving DecidableEq, Repr

/-- Mapping of the probe configuration onto the Runner configuration
(collector.go lines 220-229). -/
def toIperfConfig (c : ProbeConfig) : Iperf.Config :=
  ⟨c.Target, c.Port, c.PeriodNs, c.TimeoutNs, c.ReverseMode, c.UDPMode, c.Bitrate⟩

/-- Emission phase of Collector.Collect (collector.go lines 231-283): on
success the five common metrics carry the result values, retransmits is
emitted only in TCP mode and the eight UDP metrics only in UDP mode; on
failure every emitted metric is zero, the mode still selects which
mode-specific metrics appear, and the failure counter is incremented once.
The mode is taken from the Result's UDPMode flag, exactly as the source
branches on result.UDPMode. -/
def collectEmit (c : ProbeConfig) (res : Iperf.Result) : Snapshot :=
  let lv : List String := [c.Target, toString c.Port]
  if res.Success then
    { metrics :=
        [⟨"iperf3_up", 1, lv⟩,
          ⟨"iperf3_sent_seconds", res.SentSeconds, lv⟩,
          ⟨"iperf3_sent_bytes", res.SentBytes, lv⟩,
          ⟨"iperf3_received_seconds", res.ReceivedSeconds, lv⟩,
          ⟨"iperf3_received_bytes", res.ReceivedBytes, lv⟩] ++
        (if res.UDPMode = false then [⟨"iperf3_retransmits", res.Retransmits, lv⟩] else []) ++
        (if res.UDPMode = true then
          [⟨"iperf3_sent_packets", res.SentPackets, lv⟩,
            ⟨"iperf3_sent_jitter_ms", res.SentJitter, lv⟩,
            ⟨"iperf3_sent_lost_packets", res.SentLostPackets, lv⟩,
            ⟨"iperf3_sent_lost_percent", res.SentLostPercent, lv⟩,
            ⟨"iperf3_received_packets", res.ReceivedPackets, lv⟩,
            ⟨"iperf3_received_jitter_ms", res.ReceivedJitter, lv⟩,
            ⟨"iperf3_received_lost_packets", res.ReceivedLostPackets, lv⟩,
            ⟨"iperf3_received_lost_percent", res.ReceivedLostPercent, lv⟩]
        else []),
      errInc := 0 }
  else
    { metrics :=
        [⟨"iperf3_up", 0, lv⟩,
          ⟨"iperf3_sent_seconds", 0, lv⟩,
          ⟨"iperf3_sent_bytes", 0, lv⟩,
          ⟨"iperf3_received_seconds", 0, lv⟩,
          ⟨"iperf3_received_bytes", 0, lv⟩] ++
        (if res.UDPMode = false then
          [⟨"iperf3_retransmits", 0, lv⟩]
        else
          [⟨"iperf3_sent_packets", 0, lv⟩,
            ⟨"iperf3_sent_jitter_ms", 0, lv⟩,
            ⟨"iperf3_sent_lost_packets", 0, lv⟩,
            ⟨"iperf3_sent_lost_percent", 0, lv⟩,
            ⟨"iperf3_received_packets", 0, lv⟩,
            ⟨"iperf3_received_jitter_ms", 0, lv⟩,
            ⟨"iperf3_received_lost_packets", 0, lv⟩,
            ⟨"iperf3_received_lost_percent", 0, lv⟩]),
      errInc := 1 }

/-- Embedding of one full Collector.Collect cycle (collector.go lines
211-284): run the Runner on the instance's configuration with the given
invocation outcome, then emit the snapshot from the result. -/
def Collector.Collect (c : ProbeConfig) (outcome : Iperf.ExecOutcome) : Snapshot :=
  collectEmit c (Iperf.DefaultRunner.Run (toIperfConfig c) outcome).1

/-- The argument list up to but not including the bitrate flag, as
DefaultRunner.Run builds it (iperf.go lines 366-380). -/
def buildArgsBase (cfg : Iperf.Config) : List String :=
  let args : List String :=
    ["-J", "-t", Iperf.formatSecondsFixed0 cfg.PeriodNs, "-c", cfg.Target, "-p",
      toString cfg.Port]
  let args := if cfg.ReverseMode then args ++ ["-R"] else args
  if cfg.UDPMode then args ++ ["-u"] else args

/-- Modelled from the spec wording of the bitrate policy, for comparison with
the source's branch structure: in UDP mode a -b flag always follows, with the
supplied bitrate or the "1M" default; in TCP mode a -b flag follows only when
a bitrate was supplied. -/
def bitrateFlagPolicy (udpMode : Bool) (bitrate : String) : List String :=
  if udpMode then ["-b", if bitrate = "" then "1M" else bitrate]
  else if bitrate ≠ "" then ["-b", bitrate] else []

/-- DefaultValues of the server package (part_001 lines 112-124), in
nanoseconds where durations. -/
def MinPeriodNs : Int := 100000000

/-- Minimum timeout bound of DefaultValues (1 second). -/
def MinTimeoutNs : Int := 1000000000

/-- Maximum timeout bound of DefaultValues (300 seconds). -/
def MaxTimeoutNs : Int := 300000000000

/-- ProbeRequest of the server package (part_001 lines 126-134): the
validated, defaulted request. -/
structure ProbeRequest where
  Target : String
  Port : Int
  PeriodNs : Int
  TimeoutNs : Int
  ReverseMode : Bool
  Bitrate : String
deriving DecidableEq, Repr

/-- Target step of ParseProbeRequest (part_001 lines 144-148): the raw value
together with the field errors it contributes. -/
def parseTargetField (q : HQuery) : String × List ValidationError :=
  (q.target, if q.target = "" then [⟨"target", "must be specified"⟩] else [])

/-- Port step of ParseProbeRequest (part_001 lines 150-161): absent defaults
to 5201; a non-integer contributes an integer error (the Go variable keeps
Atoi's zero), an out-of-range integer contributes the port validator's
error. -/
def parsePortField (q : HQuery) : Int × List ValidationError :=
  if q.port = "" then (5201, [])
  else
    match goAtoi q.port with
    | none => (0, [⟨"port", "must be an integer"⟩])
    | some n =>
      match Validation.ValidatePort n with
      | some e => (n, [e])
      | none => (n, [])

/-- Period step of ParseProbeRequest (part_001 lines 163-172): absent
defaults to 5 seconds; a malformed duration contributes a period error. -/
def parsePeriodField (q : HQuery) : Int × List ValidationError :=
  if q.period = "" then (5000000000, [])
  else
    match goParseDuration q.period with
    | none => (0, [⟨"period", "invalid duration format"⟩])
    | some d => (d, [])

/-- Reverse-mode step of ParseProbeRequest (part_001 lines 174-181). -/
def parseReverseField (q : HQuery) : Bool × List ValidationError :=
  if q.reverseMode = "" then (false, [])
  else
    match goParseBool q.reverseMode with
    | none => (false, [⟨"reverse_mode", "must be true or false"⟩])
    | some b => (b, [])

/-- Bitrate step of ParseProbeRequest (part_001 lines 183-189): the raw value
passes through; a non-empty value failing the strict bitrate validator
contributes its error. -/
def parseBitrateField (q : HQuery) : String × List ValidationError :=
  (q.bitrate,
    if q.bitrate = "" then []
    else
      match Validation.ValidateBitrate q.bitrate with
      | some e => [e]
      | none => [])

/-- Timeout step of ParseProbeRequest (part_001 lines 191-200): the default is
MaxTimeout (300 seconds, not the configured exporter default); a malformed
header contributes a timeout error (the Go variable keeps ParseFloat's
zero). -/
def parseTimeoutField (q : HQuery) : Rat × List ValidationError :=
  if q.scrapeTimeoutHeader = "" then (300, [])
  else
    match goParseFloat q.scrapeTimeoutHeader with
    | none => (0, [⟨"timeout", "invalid timeout value in header"⟩])
    | some v => (v, [])

/-- The aggregate of every field-level error, in the order ParseProbeRequest
collects them. -/
def fieldErrs (q : HQuery) : List ValidationError :=
  (parseTargetField q).2 ++ (parsePortField q).2 ++ (parsePeriodField q).2 ++
    (parseReverseField q).2 ++ (parseBitrateField q).2 ++ (parseTimeoutField q).2

/-- ProbeRequest.Validate (part_001 lines 211-235): bound checks on period
(minimum 100ms, maximum the request timeout) and timeout (1s to 300s) are
collected; then, independently of those errors, a period at or above the
timeout is rescaled to 90 percent of the timeout (float multiply, truncated
to integer nanoseconds); finally the collected errors, if any, are
returned. -/
def ProbeRequest.Validate (r : ProbeRequest) : Except (List ValidationError) ProbeRequest :=
  let m1 : List ValidationError :=
    match Validation.ValidateDuration "period" r.PeriodNs MinPeriodNs r.TimeoutNs with
    | some e => [e]
    | none => []
  let m2 : List ValidationError := m1 ++
    (match Validation.ValidateDuration "timeout" r.TimeoutNs MinTimeoutNs MaxTimeoutNs with
    | some e => [e]
    | none => [])
  let r2 : ProbeRequest :=
    if r.PeriodNs ≥ r.TimeoutNs then
      { r with PeriodNs := truncRat ((r.TimeoutNs : Rat) * (9 / 10)) }
    else r
  if m2 ≠ [] then Except.error m2 else Except.ok r2

/-- Embedding of ParseProbeRequest (part_001 lines 136-208): every field step
contributes its errors to one aggregate without short-circuiting; when the
aggregate is non-empty it is returned whole, otherwise the assembled request
goes through the post-parse Validate. -/
def ParseProbeRequest (q : HQuery) : Except (List ValidationError) ProbeRequest :=
  let merr := (parseTargetField q).2 ++ (parsePortField q).2 ++ (parsePeriodField q).2 ++
    (parseReverseField q).2 ++ (parseBitrateField q).2 ++ (parseTimeoutField q).2
  let req : ProbeRequest :=
    ⟨(parseTargetField q).1, (parsePortField q).1, (parsePeriodField q).1,
      truncRat ((parseTimeoutField q).1 * 1000000000), (parseReverseField q).1,
      (parseBitrateField q).1⟩
  if merr ≠ [] then Except.error merr else req.Validate

/-- Outcome of the part_001 probeHandler: reject with the aggregate error and
an error-counter increment, or run the probe with the assembled
configuration. -/
inductive HandlerOutcomeV2 where
  | reject (errs : List ValidationError)
  | run (cfg : ProbeConfig)
deriving DecidableEq, Repr

/-- Embedding of the part_001 probeHandler (lines 29-58): a parse error is
rejected before any collector or subprocess is created; otherwise the
request becomes the probe configuration. -/
def probeHandlerParsed (q : HQuery) : HandlerOutcomeV2 :=
  match ParseProbeRequest q with
  | .error e => .reject e
  | .ok r => .run ⟨r.Target, r.Port, r.PeriodNs, r.TimeoutNs, r.ReverseMode, false, r.Bitrate⟩

/-- Phase of one scrape thread inside Collector.Collect: idle before the
call; entered once c.mutex.Lock() returned, with the probe not yet run;
emitted once the probe ran and the snapshot was sent, the lock still held
(the deferred Unlock has not run); done after the Unlock. -/
inductive TPhase where
  | idle
  | entered
  | emitted
  | done
deriving DecidableEq, Repr

/-- A thread is in the critical section - an external invocation may be in
flight on its behalf - between Lock and Unlock. -/
def TPhase.inCritical : TPhase → Bool
  | .entered => true
  | .emitted => true
  | _ => false

/-- A thread has emitted its snapshot once it passed the work step. -/
def TPhase.hasEmitted : TPhase → Bool
  | .emitted => true
  | .done => true
  | _ => false

/-- Global state of one Collector instance scraped by a list of threads: the
mutex, each thread's phase, and the log of snapshots emitted so far. -/
structure CState where
  lockHeld : Bool
  phases : List TPhase
  outputs : List Snapshot
deriving DecidableEq, Repr

/-- Interleaving semantics of concurrent Collect calls on one Collector
instance, parameterized by the snapshot one cycle emits: a thread may acquire
the free mutex, run the probe and emit while holding it, and release it. -/
inductive CStep (snap : Snapshot) : CState → CState → Prop
  | acquire (s : CState) (i : Nat) (h : s.phases[i]? = some TPhase.idle)
      (hl : s.lockHeld = false) :
      CStep snap s ⟨true, s.phases.set i TPhase.entered, s.outputs⟩
  | work (s : CState) (i : Nat) (h : s.phases[i]? = some TPhase.entered) :
      CStep snap s ⟨s.lockHeld, s.phases.set i TPhase.emitted, s.outputs ++ [snap]⟩
  | release (s : CState) (i : Nat) (h : s.phases[i]? = some TPhase.emitted) :
      CStep snap s ⟨false, s.phases.set i TPhase.done, s.outputs⟩

/-- All threads idle, mutex free, nothing emitted. -/
def initState (n : Nat) : CState := ⟨false, List.replicate n TPhase.idle, []⟩

/-- States reachable by interleaved Collect calls of n threads. -/
def CollectReachable (snap : Snapshot) (n : Nat) (s : CState) : Prop :=
  Relation.ReflTransGen (CStep snap) (initState n) s

/-- Inductive invariant of the Collect interleaving: the number of threads in
the critical section is one exactly when the mutex is held and zero
otherwise; the emission log has one entry per thread that passed the work
step; and every logged snapshot is the Collect snapshot. -/
def CollectInv (snap : Snapshot) (s : CState) : Prop :=
  s.phases.countP TPhase.inCritical = (if s.lockHeld then 1 else 0) ∧
  s.outputs.length = s.phases.countP TPhase.hasEmitted ∧
  ∀ o ∈ s.outputs, o = snap

/-- The string "100" is in the spec's bitrate grammar. -/
lemma specGrammar_100 : SpecBitrateGrammar "100" := by
  refine ⟨['1', '0', '0'], [], [], [], rfl, ⟨by simp, by decide⟩, Or.inl rfl,
    Or.inl rfl, Or.inl rfl⟩

/-- The string "1.5M" is in the spec's bitrate grammar. -/
lemma specGrammar_15M : SpecBitrateGrammar "1.5M" := by
  refine ⟨['1'], ['.', '5'], ['M'], [], rfl, ⟨by simp, by decide⟩,
    Or.inr ⟨['5'], rfl, by simp, by decide⟩, by simp, Or.inl rfl⟩

/-- C3: the strings "100" and "1.5M" both belong to the spec's bitrate grammar
^\d+(\.\d+)?[KMG]?(/\d+)?$ and are both accepted by iperf.ValidateBitrate,
whose regexp implements exactly that grammar, yet validation.ValidateBitrate
reports both invalid: its regexp ^\d+[KMG](/\d+)?$ makes the unit letter
mandatory and forbids a decimal magnitude, contradicting the format
"#[KMG][/#]" documented in its own comment and error message. The empty
string is accepted by both validators. -/
theorem c3_bitrate_validator_rejects_grammar :
    SpecBitrateGrammar "100" ∧ Iperf.ValidateBitrate "100" = true ∧
    (Validation.ValidateBitrate "100").isSome = true ∧
    SpecBitrateGrammar "1.5M" ∧ Iperf.ValidateBitrate "1.5M" = true ∧
    (Validation.ValidateBitrate "1.5M").isSome = true ∧
    Validation.ValidateBitrate "" = none ∧ Iperf.ValidateBitrate "" = true :=
  ⟨specGrammar_100, by decide, by decide, specGrammar_15M, by decide, by decide,
    by decide, by decide⟩

/-- Lexing of the header string "500". -/
lemma floatLex_500 : floatLex "500" = some ⟨false, 500, 0, 0, 0⟩ := by decide

/-- Lexing of the header string "10.5". -/
lemma floatLex_10_5 : floatLex "10.5" = some ⟨false, 10, 5, 1, 0⟩ := by decide

/-- Evaluation of the float parser at the header string "500". -/
lemma goParseFloat_500 : goParseFloat "500" = some 500 := by
  rw [goParseFloat, floatLex_500]
  norm_num [floatVal]

/-- Evaluation of the float parser at the header string "10.5". -/
lemma goParseFloat_10_5 : goParseFloat "10.5" = some (21 / 2) := by
  rw [goParseFloat, floatLex_10_5]
  norm_num [floatVal]

/-- Evaluation of the duration parser at the period string "20s". -/
lemma goParseDuration_20s : goParseDuration "20s" = some 20000000000 := by decide

/-- C1 counterexample: with a configured default timeout of 30 seconds and a
scrape-timeout header of "500", probeHandler resolves the timeout to 500
seconds, not the 300 seconds the claim predicts - no clamping into [1s, 300s]
exists on this path, and the assembled configuration carries a 500-second
deadline. -/
theorem c1_counterexample :
    resolveTimeoutSeconds 30 500 = 500 ∧ resolveTimeoutSeconds 30 500 ≠ 300 ∧
    probeHandler 30 ⟨"example.com", "", "", "", "", "500"⟩ =
      HandlerOutcome.run ⟨"example.com", 5201, 5000000000, 500000000000, false, false, ""⟩ := by
  refine ⟨by norm_num [resolveTimeoutSeconds], by norm_num [resolveTimeoutSeconds], ?_⟩
  have h1 : ¬("example.com" = "") := by decide
  have h2 : ¬("500" = "") := by decide
  norm_num [probeHandler, parsePortParam, goParseFloat_500, finalizeProbe,
    resolveTimeoutSeconds, rescalePeriodNs, runTimeoutNs, truncRat, h1, h2]

/-- C1 amended: the resolved timeout is the caller's header value whenever the
header parsed to a nonzero number, else the configured default when positive,
else 30 seconds; no clamping is applied at any point, so a header of "500"
yields a 500-second timeout. -/
theorem c1_amended (c v : Rat) (hv : v ≠ 0) :
    resolveTimeoutSeconds c v = v ∧
    resolveTimeoutSeconds c 0 = (if c > 0 then c else 30) := by
  constructor
  · simp [resolveTimeoutSeconds, hv]
  · simp [resolveTimeoutSeconds]

/-- C1 amended witness at the concrete inputs of the counterexample. -/
theorem c1_amended_witness :
    (500 : Rat) ≠ 0 ∧
    (resolveTimeoutSeconds 30 500 = 500 ∧
      resolveTimeoutSeconds 30 0 = (if (30 : Rat) > 0 then (30 : Rat) else 30)) :=
  ⟨by norm_num, c1_amended 30 500 (by norm_num)⟩

/-- C2 counterexample: with the resolved timeout 10.5 seconds (header "10.5")
and a requested period of 20 seconds, probeHandler rescales the period to 9
seconds - time.Duration(10.5 times 0.9) truncates 9.45 to 9 before the
multiplication by time.Second - while exactly 0.9 times the timeout would be
9.45 seconds (9450000000 nanoseconds). No error is raised: the outcome is
still a probe run. -/
theorem c2_counterexample :
    probeHandler 30 ⟨"example.com", "", "", "", "20s", "10.5"⟩ =
      HandlerOutcome.run ⟨"example.com", 5201, 9000000000, 10500000000, false, false, ""⟩ ∧
    (9 / 10 : Rat) * 10500000000 = 9450000000 ∧
    ((9000000000 : Rat) ≠ 9450000000) := by
  have h1 : ¬("example.com" = "") := by decide
  have h2 : ¬("20s" = "") := by decide
  have h3 : ¬("10.5" = "") := by decide
  refine ⟨?_, by norm_num, by norm_num⟩
  norm_num [probeHandler, parsePortParam, goParseDuration_20s, goParseFloat_10_5,
    finalizeProbe, resolveTimeoutSeconds, rescalePeriodNs, runTimeoutNs, truncRat,
    h1, h2, h3]

/-- C2 amended: when the requested period (in seconds) is at least the
resolved timeout, the handler's final stage still produces a probe run - no
error is raised - whose period is the timeout times 0.9 truncated to a whole
number of seconds; it equals exactly 0.9 times the timeout only when that
product is a whole number of seconds. -/
theorem c2_amended (ct ts0 : Rat) (runPeriod0 : Int) (target bitrate : String)
    (targetPort : Int) (reverseMode : Bool)
    (h : (runPeriod0 : Rat) / 1000000000 ≥ resolveTimeoutSeconds ct ts0) :
    finalizeProbe target targetPort reverseMode bitrate runPeriod0 ct ts0 =
      HandlerOutcome.run ⟨target, targetPort,
        truncRat (resolveTimeoutSeconds ct ts0 * (9 / 10)) * 1000000000,
        runTimeoutNs (resolveTimeoutSeconds ct ts0), reverseMode, false, bitrate⟩ := by
  simp only [finalizeProbe, rescalePeriodNs]
  rw [if_pos h]

/-- C2 amended witness at the inputs of the counterexample. -/
theorem c2_amended_witness :
    ((20000000000 : Int) : Rat) / 1000000000 ≥ resolveTimeoutSeconds 30 (21 / 2) ∧
    finalizeProbe "example.com" 5201 false "" 20000000000 30 (21 / 2) =
      HandlerOutcome.run ⟨"example.com", 5201,
        truncRat (resolveTimeoutSeconds 30 (21 / 2) * (9 / 10)) * 1000000000,
        runTimeoutNs (resolveTimeoutSeconds 30 (21 / 2)), false, false, ""⟩ :=
  ⟨by norm_num [resolveTimeoutSeconds],
    c2_amended 30 (21 / 2) 20000000000 "example.com" "" 5201 false
      (by norm_num [resolveTimeoutSeconds])⟩

/-- C10: a port parameter that parses to 0 is not rejected: the handler
behaves exactly as if the port parameter were absent, substituting the
default 5201 and proceeding; concretely, port "0" yields a probe run against
port 5201. -/
theorem c10_port_zero_defaults (ct : Rat) (q : HQuery) (h : q.port = "0") :
    probeHandler ct q =
      probeHandler ct ⟨q.target, "", q.reverseMode, q.bitrate, q.period, q.scrapeTimeoutHeader⟩ ∧
    probeHandler 30 ⟨"example.com", "0", "", "", "", ""⟩ =
      HandlerOutcome.run ⟨"example.com", 5201, 5000000000, 30000000000, false, false, ""⟩ := by
  constructor
  · have hp : parsePortParam q.port = parsePortParam "" := by rw [h]; decide
    simp only [probeHandler, hp]
  · have h1 : ¬("example.com" = "") := by decide
    have hz : parsePortParam "0" = some 0 := by decide
    norm_num [probeHandler, hz, finalizeProbe, resolveTimeoutSeconds, rescalePeriodNs,
      runTimeoutNs, truncRat, h1]

/-- C10 witness at a concrete request with port "0". -/
theorem c10_witness :
    (HQuery.mk "example.com" "0" "" "" "" "").port = "0" ∧
    (probeHandler 30 (HQuery.mk "example.com" "0" "" "" "" "") =
        probeHandler 30 ⟨"example.com", "", "", "", "", ""⟩ ∧
      probeHandler 30 ⟨"example.com", "0", "", "", "", ""⟩ =
        HandlerOutcome.run ⟨"example.com", 5201, 5000000000, 30000000000, false, false, ""⟩) :=
  ⟨rfl, c10_port_zero_defaults 30 (HQuery.mk "example.com" "0" "" "" "" "") rfl⟩

/-- Whenever the Runner reaches a successfully parsed report, the result is
flagged successful. -/
lemma populateParsed_success (cfg : Iperf.Config) (raw : Iperf.RawResult) :
    (Iperf.populateParsed cfg raw).1.Success = true := by
  unfold Iperf.populateParsed
  split
  · rfl
  · split <;> simp [apply_ite]

/-- On every failing path of DefaultRunner.Run the result keeps the zero
value of its UDPMode field: the flag is only set after a successful parse. -/
lemma run_failure_udpmode_false (cfg : Iperf.Config) (o : Iperf.ExecOutcome)
    (h : (Iperf.DefaultRunner.Run cfg o).1.Success = false) :
    (Iperf.DefaultRunner.Run cfg o).1.UDPMode = false := by
  unfold Iperf.DefaultRunner.Run at h ⊢
  cases hs : Iperf.runSpawns cfg with
  | none => simp [hs]
  | some args =>
    simp only [hs] at h ⊢
    cases o with
    | execError s => rfl
    | badOutput => rfl
    | parsed raw => rw [populateParsed_success cfg raw] at h; exact absurd h (by simp)

/-- C4 counterexample: a probe configured for UDP whose external invocation
fails (stderr "connection refused") emits the TCP-shaped failure snapshot - a
zero retransmits observation and none of the eight UDP observations - because
DefaultRunner.Run only sets the result's UDPMode flag after a successful
parse, so it is false on every failure and Collect's failure branch takes the
TCP arm. The failure counter is incremented once. -/
theorem c4_counterexample :
    Collector.Collect ⟨"example.com", 5201, 5000000000, 10000000000, false, true, ""⟩
        (Iperf.ExecOutcome.execError "connection refused") =
      ⟨[⟨"iperf3_up", 0, ["example.com", "5201"]⟩,
        ⟨"iperf3_sent_seconds", 0, ["example.com", "5201"]⟩,
        ⟨"iperf3_sent_bytes", 0, ["example.com", "5201"]⟩,
        ⟨"iperf3_received_seconds", 0, ["example.com", "5201"]⟩,
        ⟨"iperf3_received_bytes", 0, ["example.com", "5201"]⟩,
        ⟨"iperf3_retransmits", 0, ["example.com", "5201"]⟩], 1⟩ ∧
    ∀ mp ∈ (Collector.Collect ⟨"example.com", 5201, 5000000000, 10000000000, false, true, ""⟩
        (Iperf.ExecOutcome.execError "connection refused")).metrics,
      mp.name ≠ "iperf3_sent_packets" := by
  constructor
  · rfl
  · decide

/-- C4 amended: for every Collect whose probe result is unsuccessful, the
snapshot has up 0 and the four zero traffic observations, the failure counter
increments exactly once, and the mode-specific tail follows the Result's
UDPMode flag: a zero retransmits observation when it is false, the eight
zero-filled UDP observations (and no retransmits) when it is true. Since
DefaultRunner.Run leaves UDPMode false on every failing path, a failed probe
run always produces the retransmits-bearing TCP shape, regardless of the
configured protocol. -/
theorem c4_amended (c : ProbeConfig) (res : Iperf.Result) (h : res.Success = false) :
    (collectEmit c res).errInc = 1 ∧
    (collectEmit c res).metrics =
      [⟨"iperf3_up", 0, [c.Target, toString c.Port]⟩,
        ⟨"iperf3_sent_seconds", 0, [c.Target, toString c.Port]⟩,
        ⟨"iperf3_sent_bytes", 0, [c.Target, toString c.Port]⟩,
        ⟨"iperf3_received_seconds", 0, [c.Target, toString c.Port]⟩,
        ⟨"iperf3_received_bytes", 0, [c.Target, toString c.Port]⟩] ++
      (if res.UDPMode = false then
        [⟨"iperf3_retransmits", 0, [c.Target, toString c.Port]⟩]
      else
        [⟨"iperf3_sent_packets", 0, [c.Target, toString c.Port]⟩,
          ⟨"iperf3_sent_jitter_ms", 0, [c.Target, toString c.Port]⟩,
          ⟨"iperf3_sent_lost_packets", 0, [c.Target, toString c.Port]⟩,
          ⟨"iperf3_sent_lost_percent", 0, [c.Target, toString c.Port]⟩,
          ⟨"iperf3_received_packets", 0, [c.Target, toString c.Port]⟩,
          ⟨"iperf3_received_jitter_ms", 0, [c.Target, toString c.Port]⟩,
          ⟨"iperf3_received_lost_packets", 0, [c.Target, toString c.Port]⟩,
          ⟨"iperf3_received_lost_percent", 0, [c.Target, toString c.Port]⟩]) ∧
    (∀ cfg o, (Iperf.DefaultRunner.Run cfg o).1.Success = false →
      (Iperf.DefaultRunner.Run cfg o).1.UDPMode = false) := by
  refine ⟨by simp [collectEmit, h], by simp [collectEmit, h], ?_⟩
  intro cfg o hf
  exact run_failure_udpmode_false cfg o hf

/-- C4 amended witness at the counterexample's failed UDP-configured probe. -/
theorem c4_amended_witness :
    ((Iperf.DefaultRunner.Run
        (toIperfConfig ⟨"example.com", 5201, 5000000000, 10000000000, false, true, ""⟩)
        (Iperf.ExecOutcome.execError "connection refused")).1.Success = false) ∧
    (collectEmit ⟨"example.com", 5201, 5000000000, 10000000000, false, true, ""⟩
        (Iperf.DefaultRunner.Run
          (toIperfConfig ⟨"example.com", 5201, 5000000000, 10000000000, false, true, ""⟩)
          (Iperf.ExecOutcome.execError "connection refused")).1).errInc = 1 :=
  ⟨rfl,
    (c4_amended ⟨"example.com", 5201, 5000000000, 10000000000, false, true, ""⟩
      (Iperf.DefaultRunner.Run
        (toIperfConfig ⟨"example.com", 5201, 5000000000, 10000000000, false, true, ""⟩)
        (Iperf.ExecOutcome.execError "connection refused")).1 rfl).1⟩

/-- C6 counterexample: DefaultRunner.Run does not re-validate the port. With
port 70000 - rejected by the port validator - and an empty (valid) bitrate,
the preflight still produces an argument list, the external process is
spawned, and a parsed run even succeeds. Only the bitrate is re-validated. -/
theorem c6_counterexample :
    Validation.ValidatePort 70000 = some ⟨"port", "must be between 1 and 65535"⟩ ∧
    Iperf.runSpawns ⟨"example.com", 70000, 5000000000, 10000000000, false, false, ""⟩ =
      some (Iperf.buildIperfArgs ⟨"example.com", 70000, 5000000000, 10000000000, false, false, ""⟩) ∧
    (Iperf.DefaultRunner.Run ⟨"example.com", 70000, 5000000000, 10000000000, false, false, ""⟩
        (Iperf.ExecOutcome.parsed ⟨"TCP", ⟨5, 100, 200, 3⟩, ⟨5, 90, 180⟩, [],
          ⟨0, 0, 0, 0, 0, 0, 0, 0, 0, 0, false⟩⟩)).1.Success = true :=
  ⟨rfl, rfl, rfl⟩

/-- C6 amended: DefaultRunner.Run never panics (it is a total function of its
inputs here) and re-validates only the bitrate: when the bitrate is invalid
it spawns nothing and returns success false with a populated error, and when
the bitrate is valid it always proceeds to spawn with the built argument
list - in particular an out-of-range port is not checked. -/
theorem c6_amended (cfg : Iperf.Config) (o : Iperf.ExecOutcome) :
    (Iperf.ValidateBitrate cfg.Bitrate = false →
      Iperf.runSpawns cfg = none ∧
      (Iperf.DefaultRunner.Run cfg o).1.Success = false ∧
      (Iperf.DefaultRunner.Run cfg o).1.ErrMsg ≠ none) ∧
    (Iperf.ValidateBitrate cfg.Bitrate = true →
      Iperf.runSpawns cfg = some (Iperf.buildIperfArgs cfg)) := by
  constructor
  · intro hb
    have hne : cfg.Bitrate ≠ "" := by
      intro he
      rw [he] at hb
      exact absurd hb (by decide)
    have hs : Iperf.runSpawns cfg = none := by simp [Iperf.runSpawns, hne, hb]
    refine ⟨hs, ?_, ?_⟩ <;> simp [Iperf.DefaultRunner.Run, hs]
  · intro hb
    simp [Iperf.runSpawns, hb]

/-- C6 amended witness: a concrete invalid bitrate is rejected without any
spawn. -/
theorem c6_amended_witness :
    Iperf.ValidateBitrate "xyz" = false ∧
    (Iperf.runSpawns ⟨"example.com", 5201, 5000000000, 10000000000, false, false, "xyz"⟩ = none ∧
      (Iperf.DefaultRunner.Run ⟨"example.com", 5201, 5000000000, 10000000000, false, false, "xyz"⟩
          Iperf.ExecOutcome.badOutput).1.Success = false ∧
      (Iperf.DefaultRunner.Run ⟨"example.com", 5201, 5000000000, 10000000000, false, false, "xyz"⟩
          Iperf.ExecOutcome.badOutput).1.ErrMsg ≠ none) :=
  ⟨by decide,
    (c6_amended ⟨"example.com", 5201, 5000000000, 10000000000, false, false, "xyz"⟩
        Iperf.ExecOutcome.badOutput).1 (by decide)⟩

/-- C7: the built argument list is the base list followed exactly by the
spec's bitrate policy, and case by case: UDP with no bitrate appends -b 1M
and logs that the default applies; UDP with a bitrate appends -b with that
value and logs nothing; TCP appends -b with the supplied value only when one
was supplied. -/
theorem c7_bitrate_flag_policy (cfg : Iperf.Config) :
    Iperf.buildIperfArgs cfg = buildArgsBase cfg ++ bitrateFlagPolicy cfg.UDPMode cfg.Bitrate ∧
    (cfg.UDPMode = true → cfg.Bitrate = "" →
      bitrateFlagPolicy cfg.UDPMode cfg.Bitrate = ["-b", "1M"] ∧
        Iperf.usesDefaultUdpBitrate cfg = true) ∧
    (cfg.UDPMode = true → cfg.Bitrate ≠ "" →
      bitrateFlagPolicy cfg.UDPMode cfg.Bitrate = ["-b", cfg.Bitrate] ∧
        Iperf.usesDefaultUdpBitrate cfg = false) ∧
    (cfg.UDPMode = false →
      (cfg.Bitrate ≠ "" → bitrateFlagPolicy cfg.UDPMode cfg.Bitrate = ["-b", cfg.Bitrate]) ∧
      (cfg.Bitrate = "" → bitrateFlagPolicy cfg.UDPMode cfg.Bitrate = [])) := by
  by_cases hU : cfg.UDPMode <;> by_cases hB : cfg.Bitrate = "" <;>
    simp [Iperf.buildIperfArgs, buildArgsBase, bitrateFlagPolicy,
      Iperf.usesDefaultUdpBitrate, hU, hB]

/-- C7 witness at a concrete UDP configuration without a bitrate. -/
theorem c7_witness :
    Iperf.buildIperfArgs ⟨"example.com", 5201, 5000000000, 10000000000, false, true, ""⟩ =
      buildArgsBase ⟨"example.com", 5201, 5000000000, 10000000000, false, true, ""⟩ ++
        bitrateFlagPolicy true "" ∧
    bitrateFlagPolicy true "" = ["-b", "1M"] ∧
    Iperf.usesDefaultUdpBitrate ⟨"example.com", 5201, 5000000000, 10000000000, false, true, ""⟩ =
      true :=
  ⟨(c7_bitrate_flag_policy ⟨"example.com", 5201, 5000000000, 10000000000, false, true, ""⟩).1,
    ((c7_bitrate_flag_policy
        ⟨"example.com", 5201, 5000000000, 10000000000, false, true, ""⟩).2.1 rfl rfl).1,
    ((c7_bitrate_flag_policy
        ⟨"example.com", 5201, 5000000000, 10000000000, false, true, ""⟩).2.1 rfl rfl).2⟩

/-- The result of a successful parse carries the configured protocol mode,
never one inferred from the report. -/
lemma populateParsed_udpmode (cfg : Iperf.Config) (raw : Iperf.RawResult) :
    (Iperf.populateParsed cfg raw).1.UDPMode = cfg.UDPMode := by
  unfold Iperf.populateParsed
  split
  · rfl
  · split <;> simp [apply_ite]

/-- With a valid bitrate, the Runner on a parsed report is exactly the
population phase. -/
lemma run_parsed_eq (cfg : Iperf.Config) (raw : Iperf.RawResult)
    (hb : Iperf.ValidateBitrate cfg.Bitrate = true) :
    Iperf.DefaultRunner.Run cfg (Iperf.ExecOutcome.parsed raw) =
      Iperf.populateParsed cfg raw := by
  simp [Iperf.DefaultRunner.Run, Iperf.runSpawns, hb]

/-- C8: on every successful parse (with the bitrate preflight passing),
Result.Success is true and Result.UDPMode equals the configured mode whatever
the report contains; in UDP mode the sender-side fields come from
streams[0].udp and the receiver-side fields from the sum block, and when the
streams list is empty the no-streams warning is logged, every sender-side
field stays zero, and Success remains true. -/
theorem c8_parse_population (cfg : Iperf.Config) (raw : Iperf.RawResult)
    (hb : Iperf.ValidateBitrate cfg.Bitrate = true) :
    (Iperf.DefaultRunner.Run cfg (Iperf.ExecOutcome.parsed raw)).1.Success = true ∧
    (Iperf.DefaultRunner.Run cfg (Iperf.ExecOutcome.parsed raw)).1.UDPMode = cfg.UDPMode ∧
    (cfg.UDPMode = true →
      (raw.streams = [] →
        (Iperf.DefaultRunner.Run cfg (Iperf.ExecOutcome.parsed raw)).1.SentSeconds = 0 ∧
        (Iperf.DefaultRunner.Run cfg (Iperf.ExecOutcome.parsed raw)).1.SentBytes = 0 ∧
        (Iperf.DefaultRunner.Run cfg (Iperf.ExecOutcome.parsed raw)).1.SentBitsPerSecond = 0 ∧
        (Iperf.DefaultRunner.Run cfg (Iperf.ExecOutcome.parsed raw)).1.SentPackets = 0 ∧
        (Iperf.DefaultRunner.Run cfg (Iperf.ExecOutcome.parsed raw)).1.SentJitter = 0 ∧
        (Iperf.DefaultRunner.Run cfg (Iperf.ExecOutcome.parsed raw)).1.SentLostPackets = 0 ∧
        (Iperf.DefaultRunner.Run cfg (Iperf.ExecOutcome.parsed raw)).1.SentLostPercent = 0 ∧
        Iperf.RunWarning.noStreams ∈
          (Iperf.DefaultRunner.Run cfg (Iperf.ExecOutcome.parsed raw)).2) ∧
      (∀ s0 rest, raw.streams = s0 :: rest →
        (Iperf.DefaultRunner.Run cfg (Iperf.ExecOutcome.parsed raw)).1.SentSeconds =
            s0.udp.seconds ∧
        (Iperf.DefaultRunner.Run cfg (Iperf.ExecOutcome.parsed raw)).1.SentBytes = s0.udp.bytes ∧
        (Iperf.DefaultRunner.Run cfg (Iperf.ExecOutcome.parsed raw)).1.SentBitsPerSecond =
            s0.udp.bitsPerSecond ∧
        (Iperf.DefaultRunner.Run cfg (Iperf.ExecOutcome.parsed raw)).1.SentPackets =
            s0.udp.packets ∧
        (Iperf.DefaultRunner.Run cfg (Iperf.ExecOutcome.parsed raw)).1.SentJitter =
            s0.udp.jitterMs ∧
        (Iperf.DefaultRunner.Run cfg (Iperf.ExecOutcome.parsed raw)).1.SentLostPackets =
            s0.udp.lostPackets ∧
        (Iperf.DefaultRunner.Run cfg (Iperf.ExecOutcome.parsed raw)).1.SentLostPercent =
            s0.udp.lostPercent) ∧
      (Iperf.DefaultRunner.Run cfg (Iperf.ExecOutcome.parsed raw)).1.ReceivedSeconds =
          raw.sum.seconds ∧
      (Iperf.DefaultRunner.Run cfg (Iperf.ExecOutcome.parsed raw)).1.ReceivedBytes =
          raw.sum.bytes ∧
      (Iperf.DefaultRunner.Run cfg (Iperf.ExecOutcome.parsed raw)).1.ReceivedBitsPerSecond =
          raw.sum.bitsPerSecond ∧
      (Iperf.DefaultRunner.Run cfg (Iperf.ExecOutcome.parsed raw)).1.ReceivedPackets =
          raw.sum.packets ∧
      (Iperf.DefaultRunner.Run cfg (Iperf.ExecOutcome.parsed raw)).1.ReceivedJitter =
          raw.sum.jitterMs ∧
      (Iperf.DefaultRunner.Run cfg (Iperf.ExecOutcome.parsed raw)).1.ReceivedLostPackets =
          raw.sum.lostPackets ∧
      (Iperf.DefaultRunner.Run cfg (Iperf.ExecOutcome.parsed raw)).1.ReceivedLostPercent =
          raw.sum.lostPercent) := by
  rw [run_parsed_eq cfg raw hb]
  refine ⟨populateParsed_success cfg raw, populateParsed_udpmode cfg raw, ?_⟩
  intro hU
  refine ⟨?_, ?_, ?_⟩
  · intro hstreams
    unfold Iperf.populateParsed
    simp [hU, hstreams, apply_ite]
    split <;> simp
  · intro s0 rest hstreams
    unfold Iperf.populateParsed
    simp [hU, hstreams, apply_ite]
  · cases hraw : raw.streams with
    | nil =>
      unfold Iperf.populateParsed
      simp [hU, hraw, apply_ite]
    | cons s0 rest =>
      unfold Iperf.populateParsed
      simp [hU, hraw, apply_ite]

/-- C8 witness: a concrete UDP probe whose report has an empty streams list
parses successfully, keeps the configured mode, and logs the no-streams
warning. -/
theorem c8_witness :
    Iperf.ValidateBitrate "" = true ∧
    (Iperf.DefaultRunner.Run ⟨"example.com", 5201, 5000000000, 10000000000, false, true, ""⟩
        (Iperf.ExecOutcome.parsed
          ⟨"UDP", ⟨0, 0, 0, 0⟩, ⟨0, 0, 0⟩, [], ⟨0, 0, 0, 0, 0, 0, 0, 0, 0, 0, false⟩⟩)).1.Success =
      true ∧
    (Iperf.DefaultRunner.Run ⟨"example.com", 5201, 5000000000, 10000000000, false, true, ""⟩
        (Iperf.ExecOutcome.parsed
          ⟨"UDP", ⟨0, 0, 0, 0⟩, ⟨0, 0, 0⟩, [], ⟨0, 0, 0, 0, 0, 0, 0, 0, 0, 0, false⟩⟩)).1.UDPMode =
      true ∧
    Iperf.RunWarning.noStreams ∈
      (Iperf.DefaultRunner.Run ⟨"example.com", 5201, 5000000000, 10000000000, false, true, ""⟩
        (Iperf.ExecOutcome.parsed
          ⟨"UDP", ⟨0, 0, 0, 0⟩, ⟨0, 0, 0⟩, [], ⟨0, 0, 0, 0, 0, 0, 0, 0, 0, 0, false⟩⟩)).2 := by
  have h := c8_parse_population
    ⟨"example.com", 5201, 5000000000, 10000000000, false, true, ""⟩
    ⟨"UDP", ⟨0, 0, 0, 0⟩, ⟨0, 0, 0⟩, [], ⟨0, 0, 0, 0, 0, 0, 0, 0, 0, 0, false⟩⟩ (by decide)
  exact ⟨by decide, h.1, h.2.1, ((h.2.2 rfl).1 rfl).2.2.2.2.2.2.2⟩

/-- C9: whenever any field-level check fails, ParseProbeRequest returns the
whole aggregate of field errors - every individually failing field appears in
it, in field order, rather than only the first one - and the handler rejects
the request without ever reaching a probe run. -/
theorem c9_aggregate_field_errors (q : HQuery) (h : fieldErrs q ≠ []) :
    ParseProbeRequest q = Except.error (fieldErrs q) ∧
    (q.target = "" → (⟨"target", "must be specified"⟩ : ValidationError) ∈ fieldErrs q) ∧
    (q.port ≠ "" → goAtoi q.port = none →
      (⟨"port", "must be an integer"⟩ : ValidationError) ∈ fieldErrs q) ∧
    (∀ n e, q.port ≠ "" → goAtoi q.port = some n → Validation.ValidatePort n = some e →
      e ∈ fieldErrs q) ∧
    (q.period ≠ "" → goParseDuration q.period = none →
      (⟨"period", "invalid duration format"⟩ : ValidationError) ∈ fieldErrs q) ∧
    (q.reverseMode ≠ "" → goParseBool q.reverseMode = none →
      (⟨"reverse_mode", "must be true or false"⟩ : ValidationError) ∈ fieldErrs q) ∧
    (∀ e, q.bitrate ≠ "" → Validation.ValidateBitrate q.bitrate = some e → e ∈ fieldErrs q) ∧
    (q.scrapeTimeoutHeader ≠ "" → goParseFloat q.scrapeTimeoutHeader = none →
      (⟨"timeout", "invalid timeout value in header"⟩ : ValidationError) ∈ fieldErrs q) ∧
    probeHandlerParsed q = HandlerOutcomeV2.reject (fieldErrs q) ∧
    (∀ cfg, probeHandlerParsed q ≠ HandlerOutcomeV2.run cfg) := by
  have hp : ParseProbeRequest q = Except.error (fieldErrs q) := by
    unfold ParseProbeRequest
    rw [if_pos]
    · rfl
    · exact h
  have hh : probeHandlerParsed q = HandlerOutcomeV2.reject (fieldErrs q) := by
    unfold probeHandlerParsed
    rw [hp]
  refine ⟨hp, ?_, ?_, ?_, ?_, ?_, ?_, ?_, hh, ?_⟩
  · intro ht
    simp [fieldErrs, parseTargetField, ht]
  · intro hne hat
    simp [fieldErrs, parsePortField, hne, hat]
  · intro n e hne hat hv
    simp [fieldErrs, parsePortField, hne, hat, hv]
  · intro hne hd
    simp [fieldErrs, parsePeriodField, hne, hd]
  · intro hne hb
    simp [fieldErrs, parseReverseField, hne, hb]
  · intro e hne hb
    simp [fieldErrs, parseBitrateField, hne, hb]
  · intro hne hf
    simp [fieldErrs, parseTimeoutField, hne, hf]
  · intro cfg
    rw [hh]
    intro hc
    exact HandlerOutcomeV2.noConfusion hc

/-- C9 witness: a request with no target and a non-integer port is rejected
with both field errors in one aggregate. -/
theorem c9_witness :
    fieldErrs ⟨"", "abc", "", "", "", ""⟩ ≠ [] ∧
    fieldErrs ⟨"", "abc", "", "", "", ""⟩ =
      [⟨"target", "must be specified"⟩, ⟨"port", "must be an integer"⟩] ∧
    ParseProbeRequest ⟨"", "abc", "", "", "", ""⟩ =
      Except.error (fieldErrs ⟨"", "abc", "", "", "", ""⟩) ∧
    (∀ cfg, probeHandlerParsed ⟨"", "abc", "", "", "", ""⟩ ≠ HandlerOutcomeV2.run cfg) := by
  have h := c9_aggregate_field_errors ⟨"", "abc", "", "", "", ""⟩ (by decide)
  exact ⟨by decide, by decide, h.1, h.2.2.2.2.2.2.2.2.2⟩

/-- Replacing the element at a position changes a countP tally by exactly the
predicate difference of old and new element. -/
lemma countP_set_balance (p : TPhase → Bool) (l : List TPhase) (i : Nat) (a b : TPhase)
    (h : l[i]? = some a) :
    (l.set i b).countP p + (if p a then 1 else 0) = l.countP p + (if p b then 1 else 0) := by
  induction l generalizing i with
  | nil => simp at h
  | cons x xs ih =>
    cases i with
    | zero =>
      simp only [List.getElem?_cons_zero, Option.some.injEq] at h
      subst h
      simp [List.countP_cons]
      omega
    | succ j =>
      simp only [List.getElem?_cons_succ] at h
      have hj := ih j h
      simp [List.countP_cons]
      omega

/-- An element delivered by an index lookup is a member. -/
lemma getElem?_then_mem {α : Type} (l : List α) (i : Nat) (a : α) (h : l[i]? = some a) :
    a ∈ l := by
  induction l generalizing i with
  | nil => simp at h
  | cons x xs ih =>
    cases i with
    | zero =>
      simp only [List.getElem?_cons_zero, Option.some.injEq] at h
      exact h ▸ List.mem_cons_self x xs
    | succ j =>
      simp only [List.getElem?_cons_succ] at h
      exact List.mem_cons_of_mem x (ih j h)

/-- Replicating an element the predicate rejects gives a zero tally. -/
lemma countP_replicate_zero (p : TPhase → Bool) (a : TPhase) (n : Nat) (h : p a = false) :
    (List.replicate n a).countP p = 0 := by
  rw [List.countP_eq_zero]
  intro b hb
  rw [List.eq_of_mem_replicate hb]
  simp [h]

/-- The invariant holds initially. -/
lemma collectInv_init (snap : Snapshot) (n : Nat) : CollectInv snap (initState n) := by
  have h1 := countP_replicate_zero TPhase.inCritical TPhase.idle n (by decide)
  have h2 := countP_replicate_zero TPhase.hasEmitted TPhase.idle n (by decide)
  exact ⟨by simp [initState, h1], by simp [initState, h2], by simp [initState]⟩

/-- Every step preserves the invariant. -/
lemma collectInv_step (snap : Snapshot) {s s' : CState} (hs : CStep snap s s')
    (hi : CollectInv snap s) : CollectInv snap s' := by
  obtain ⟨hc, he, ho⟩ := hi
  cases hs with
  | acquire i h hl =>
    have hb1 : (s.phases.set i TPhase.entered).countP TPhase.inCritical + 0 =
        s.phases.countP TPhase.inCritical + 1 :=
      countP_set_balance TPhase.inCritical s.phases i TPhase.idle TPhase.entered h
    have hb2 : (s.phases.set i TPhase.entered).countP TPhase.hasEmitted + 0 =
        s.phases.countP TPhase.hasEmitted + 0 :=
      countP_set_balance TPhase.hasEmitted s.phases i TPhase.idle TPhase.entered h
    have hc0 : s.phases.countP TPhase.inCritical = 0 := by rw [hl] at hc; exact hc
    refine ⟨?_, ?_, ho⟩
    · show (s.phases.set i TPhase.entered).countP TPhase.inCritical = 1
      omega
    · show s.outputs.length = (s.phases.set i TPhase.entered).countP TPhase.hasEmitted
      omega
  | work i h =>
    have hb1 : (s.phases.set i TPhase.emitted).countP TPhase.inCritical + 1 =
        s.phases.countP TPhase.inCritical + 1 :=
      countP_set_balance TPhase.inCritical s.phases i TPhase.entered TPhase.emitted h
    have hb2 : (s.phases.set i TPhase.emitted).countP TPhase.hasEmitted + 0 =
        s.phases.countP TPhase.hasEmitted + 1 :=
      countP_set_balance TPhase.hasEmitted s.phases i TPhase.entered TPhase.emitted h
    have hlen : (s.outputs ++ [snap]).length = s.outputs.length + 1 := by simp
    refine ⟨?_, ?_, ?_⟩
    · show (s.phases.set i TPhase.emitted).countP TPhase.inCritical =
        if s.lockHeld = true then 1 else 0
      rw [← hc]
      omega
    · show (s.outputs ++ [snap]).length =
        (s.phases.set i TPhase.emitted).countP TPhase.hasEmitted
      omega
    · intro o hmem
      rcases List.mem_append.mp hmem with hmem1 | hmem2
      · exact ho o hmem1
      · simp at hmem2
        exact hmem2
  | release i h =>
    have hb1 : (s.phases.set i TPhase.done).countP TPhase.inCritical + 1 =
        s.phases.countP TPhase.inCritical + 0 :=
      countP_set_balance TPhase.inCritical s.phases i TPhase.emitted TPhase.done h
    have hb2 : (s.phases.set i TPhase.done).countP TPhase.hasEmitted + 1 =
        s.phases.countP TPhase.hasEmitted + 1 :=
      countP_set_balance TPhase.hasEmitted s.phases i TPhase.emitted TPhase.done h
    have hpos : 0 < s.phases.countP TPhase.inCritical := by
      rw [List.countP_pos_iff]
      exact ⟨TPhase.emitted, getElem?_then_mem s.phases i TPhase.emitted h, by decide⟩
    cases hLH : s.lockHeld with
    | false =>
      rw [hLH] at hc
      have hc0 : s.phases.countP TPhase.inCritical = 0 := hc
      exact absurd hc0 (by omega)
    | true =>
      rw [hLH] at hc
      have hc1 : s.phases.countP TPhase.inCritical = 1 := hc
      refine ⟨?_, ?_, ho⟩
      · show (s.phases.set i TPhase.done).countP TPhase.inCritical = 0
        omega
      · show s.outputs.length = (s.phases.set i TPhase.done).countP TPhase.hasEmitted
        omega

/-- The invariant holds in every reachable state. -/
lemma collectInv_reachable (snap : Snapshot) (n : Nat) (s : CState)
    (h : CollectReachable snap n s) : CollectInv snap s := by
  induction h with
  | refl => exact collectInv_init snap n
  | tail _ hstep ih => exact collectInv_step snap hstep ih

/-- Two distinct positions holding predicate-satisfying elements force a
tally of at least two. -/
lemma two_le_countP_of_pair (l : List TPhase) (p : TPhase → Bool) (i j : Nat) (a b : TPhase)
    (hij : i ≠ j) (ha : l[i]? = some a) (hb : l[j]? = some b)
    (hpa : p a = true) (hpb : p b = true) : 2 ≤ l.countP p := by
  induction l generalizing i j with
  | nil => simp at ha
  | cons x xs ih =>
    rw [List.countP_cons]
    cases i with
    | zero =>
      cases j with
      | zero => exact absurd rfl hij
      | succ j1 =>
        simp only [List.getElem?_cons_zero, Option.some.injEq] at ha
        simp only [List.getElem?_cons_succ] at hb
        have hmem : 0 < xs.countP p :=
          List.countP_pos_iff.mpr ⟨b, getElem?_then_mem xs j1 b hb, hpb⟩
        rw [← ha] at hpa
        rw [hpa]
        show 2 ≤ xs.countP p + 1
        omega
    | succ i1 =>
      cases j with
      | zero =>
        simp only [List.getElem?_cons_zero, Option.some.injEq] at hb
        simp only [List.getElem?_cons_succ] at ha
        have hmem : 0 < xs.countP p :=
          List.countP_pos_iff.mpr ⟨a, getElem?_then_mem xs i1 a ha, hpa⟩
        rw [← hb] at hpb
        rw [hpb]
        show 2 ≤ xs.countP p + 1
        omega
      | succ j1 =>
        simp only [List.getElem?_cons_succ] at ha hb
        have h2 := ih i1 j1 (fun hcon => hij (by rw [hcon])) ha hb
        omega

/-- C5: in every state reachable by any interleaving of concurrent Collect
calls on one Collector instance, no two threads are inside the mutex-guarded
section at once - at most one external invocation is in flight - and every
snapshot logged so far is the instance's full Collect snapshot, one per
thread that has passed the emission step. -/
theorem c5_collect_serialized (c : ProbeConfig) (o : Iperf.ExecOutcome) (n : Nat) (s : CState)
    (h : CollectReachable (Collector.Collect c o) n s) :
    (∀ (i j : Nat) (pi pj : TPhase), i ≠ j → s.phases[i]? = some pi → s.phases[j]? = some pj →
      ¬(pi.inCritical = true ∧ pj.inCritical = true)) ∧
    (∀ snapOut ∈ s.outputs, snapOut = Collector.Collect c o) ∧
    s.outputs.length = s.phases.countP TPhase.hasEmitted := by
  obtain ⟨hc, he, ho⟩ := collectInv_reachable (Collector.Collect c o) n s h
  refine ⟨?_, ho, he⟩
  intro i j pi pj hij hgi hgj hcrit
  obtain ⟨hpi, hpj⟩ := hcrit
  have h2 := two_le_countP_of_pair s.phases TPhase.inCritical i j pi pj hij hgi hgj hpi hpj
  have hle : s.phases.countP TPhase.inCritical ≤ 1 := by
    rw [hc]
    cases s.lockHeld <;> simp
  omega

/-- C5 witness: one acquire step from the two-thread initial state reaches a
state with a single thread in the critical section, where the theorem's
conclusions hold concretely. -/
theorem c5_witness :
    (∀ (i j : Nat) (pi pj : TPhase), i ≠ j →
      (⟨true, [TPhase.entered, TPhase.idle], []⟩ : CState).phases[i]? = some pi →
      (⟨true, [TPhase.entered, TPhase.idle], []⟩ : CState).phases[j]? = some pj →
      ¬(pi.inCritical = true ∧ pj.inCritical = true)) ∧
    (∀ snapOut ∈ (⟨true, [TPhase.entered, TPhase.idle], []⟩ : CState).outputs,
      snapOut = Collector.Collect ⟨"example.com", 5201, 5000000000, 10000000000, false, false, ""⟩
        (Iperf.ExecOutcome.execError "refused")) ∧
    (⟨true, [TPhase.entered, TPhase.idle], []⟩ : CState).outputs.length =
      ([TPhase.entered, TPhase.idle] : List TPhase).countP TPhase.hasEmitted :=
  c5_collect_serialized ⟨"example.com", 5201, 5000000000, 10000000000, false, false, ""⟩
    (Iperf.ExecOutcome.execError "refused") 2
    ⟨true, [TPhase.entered, TPhase.idle], []⟩
    (Relation.ReflTransGen.single
      (CStep.acquire (initState 2) 0 rfl rfl))
